import Mathlib

/-!
Verification development for MFEM's SUNDIALS interface
(`src/linalg/sundials.cpp`), as a shallow embedding in Lean 4.

Modelling conventions:
  * The serial build is modelled (`MFEM_USE_MPI` not defined), so `N_Vector`
    is the serial vector (`NV_DATA_S` / `NV_LENGTH_S`).
  * `realtype` (`double`) is modelled as `ℚ`.
  * Data buffers live in a heap `Nat → List ℚ`; an `mfem::Vector` and a
    serial `N_Vector` are both a data pointer plus a length, so pointer
    aliasing is visible in the model.
  * The external SUNDIALS integrator (CVODE / ARKODE) is a collaborator:
    its memory structs (`CVodeMem`, `ARKodeMem`) are modelled with the
    fields this file reads and writes, its configuration calls
    (`CVodeInit`, `CVodeSStolerances`, ...) record their arguments in the
    memory struct, and the actual integration (`CVode` / `ARKode`) is a
    `StepOracle` parameter: the achieved time, the last step size and the
    data written into the state buffer are arbitrary functions of the
    current internal time and the target time.
  * Calls out of the adapter into opaque user code (`SolveJacobian`,
    a previously installed `lfree` hook, destructors) are recorded as
    events in a trace.
  * `MFEM_ASSERT` is a debug-build assertion and is not modelled (the
    release build proceeds regardless of the checked flag).
-/

namespace mfem

/-- The machine real type `realtype` (`double`), modelled as `ℚ`. -/
abbrev R : Type := ℚ

/-- A heap mapping a buffer address to the buffer contents. -/
def DataHeap : Type := Nat → List R

/-- Overwrite the buffer at address `p`. -/
def DataHeap.update (h : DataHeap) (p : Nat) (v : List R) : DataHeap :=
  fun q => if q = p then v else h q

/-- An `mfem::Vector` as seen by this interop layer: the `GetData()`
pointer and the `Size()`. -/
structure MVector where
  dataPtr : Nat
  size : Nat
  deriving DecidableEq, Repr

/-- A serial `N_Vector`: the `NV_DATA_S` pointer and the `NV_LENGTH_S`
length. -/
structure NVector where
  dataPtr : Nat
  length : Nat
  deriving DecidableEq, Repr

/-- Model of `N_VMake_Serial(len, data)`: wrap an existing buffer, no copy. -/
def N_VMake_Serial (len : Nat) (data : Nat) : NVector :=
  { dataPtr := data, length := len }

/-- An `mfem::TimeDependentOperator`: a current time, a width, and the
right-hand-side function `f`.  `Mult` evaluates `f` at the operator's
current time. -/
structure TimeDependentOperator where
  time : R
  width : Nat
  fn : R → List R → List R

/-- Model of `TimeDependentOperator::SetTime`. -/
def TimeDependentOperator.SetTime (f : TimeDependentOperator) (t : R) :
    TimeDependentOperator :=
  { f with time := t }

/-- Model of `TimeDependentOperator::Mult`: apply the RHS at the current time. -/
def TimeDependentOperator.Mult (f : TimeDependentOperator) (x : List R) :
    List R :=
  f.fn f.time x

/-- Model of `Operator::Width`. -/
def TimeDependentOperator.Width (f : TimeDependentOperator) : Nat :=
  f.width

/-- Right-hand-side callback pointers that this file registers with the
external library.  The only one is the trampoline `SundialsMult`. -/
inductive RhsFn where
  | sundialsMult
  deriving DecidableEq, Repr

/-- SUNDIALS constant `CV_ADAMS`. -/
def CV_ADAMS : Nat := 1

/-- SUNDIALS constant `CV_BDF`. -/
def CV_BDF : Nat := 2

/-- SUNDIALS constant `CV_FUNCTIONAL`. -/
def CV_FUNCTIONAL : Nat := 1

/-- SUNDIALS constant `CV_NEWTON`. -/
def CV_NEWTON : Nat := 2

/-- Default relative tolerance `RELTOL` (`1.0e-4`). -/
def RELTOL : R := 1 / 10000

/-- Default absolute tolerance `ABSTOL` (`1.0e-9`). -/
def ABSTOL : R := 1 / 1000000000

/-- The RHS trampoline `SundialsMult(t, y, ydot, user_data)`.  `user_data`
is the registered `TimeDependentOperator`.  It builds mfem vectors linked
to the data of `y` and `ydot`, sets the operator's time to `t`, applies
the operator, writes the result into the buffer of `ydot`, and returns 0.
The returned triple is (updated operator, updated heap, return flag). -/
def SundialsMult (t : R) (y ydot : NVector) (heap : DataHeap)
    (user_data : TimeDependentOperator) :
    TimeDependentOperator × DataHeap × Int :=
  let mfem_y : MVector := { dataPtr := y.dataPtr, size := y.length }
  let mfem_ydot : MVector := { dataPtr := ydot.dataPtr, size := ydot.length }
  let f := user_data.SetTime t
  let result := f.Mult (heap mfem_y.dataPtr)
  (f, heap.update mfem_ydot.dataPtr result, 0)

/-- Pointers assignable to the four CVODE linear-solver hook fields.  The
wrapper constructors name the functions installed by `MFEMLinearCVSolve`;
`other` stands for any externally installed hook. -/
inductive CVHook where
  | wrapLinearCVSolveInit
  | wrapLinearCVSolveSetup
  | wrapLinearCVSolve
  | wrapLinearCVSolveFree
  | other (k : Nat)
  deriving DecidableEq, Repr

/-- Pointers assignable to the four ARKODE linear-solver hook fields. -/
inductive ARKHook where
  | wrapLinearARKSolveInit
  | wrapLinearARKSolveSetup
  | wrapLinearARKSolve
  | wrapLinearARKSolveFree
  | other (k : Nat)
  deriving DecidableEq, Repr

/-- The struct `mfem::MFEMLinearSolverMemory` stored in the integrator's
`lmem` field.  `J_solve` and `op_for_gradient` are the pointers to the
caller-supplied `Solver` and `SundialsLinearSolveOperator`, modelled as
opaque addresses. -/
structure MFEMLinearSolverMemory where
  setup_y : MVector
  setup_f : MVector
  solve_y : MVector
  solve_yn : MVector
  solve_f : MVector
  solve_b : MVector
  vec_tmp : MVector
  J_solve : Nat
  op_for_gradient : Nat
  weight : R
  deriving DecidableEq, Repr

/-- Observable calls out of the adapter into external or user code. -/
inductive Event where
  | advance (tout tret hlast : R)
  | solveJacobian (op : Nat) (b ycur yn : MVector) (jsolve : Nat) (weight : R)
  | cvFreeHookCalled (hk : CVHook)
  | arkFreeHookCalled (hk : ARKHook)
  | destroyNVector (y : NVector)
  | cvodeFree
  | arkodeFree
  deriving DecidableEq, Repr

/-- Linear-solver modules attachable through the CVODE API
(`CVBand`, `CVSpgmr`). -/
inductive LinModule where
  | band (n mu ml : R)
  | spgmr (pretype maxl : Int)
  deriving DecidableEq, Repr

/-- The external `CVodeMem` struct, restricted to the fields this file
reads or writes.  Configuration calls below record their arguments here. -/
structure CVodeMem where
  cv_lmm : Nat
  cv_iter : Nat
  cv_tn : R
  cv_gamma : R
  cv_rhs : Option RhsFn
  cv_zn0 : NVector
  cv_user_data : Option TimeDependentOperator
  cv_reltol : R
  cv_abstol : R
  cv_linit : Option CVHook
  cv_lsetup : Option CVHook
  cv_lsolve : Option CVHook
  cv_lfree : Option CVHook
  cv_setupNonNull : Int
  cv_maxcor : Int
  cv_maxNumSteps : Int
  cv_ls : Option LinModule
  cv_lmem : Option MFEMLinearSolverMemory
  cv_lastStep : R

/-- Model of `CVodeCreate(lmm, iter)`: fresh integrator memory.  Numeric defaults
of the external library are abstracted to zero; no linear-solver hooks
are installed on a fresh memory. -/
def CVodeCreate (lmm iter : Nat) : CVodeMem :=
  { cv_lmm := lmm, cv_iter := iter, cv_tn := 0, cv_gamma := 0,
    cv_rhs := none, cv_zn0 := { dataPtr := 0, length := 0 },
    cv_user_data := none, cv_reltol := 0, cv_abstol := 0,
    cv_linit := none, cv_lsetup := none, cv_lsolve := none, cv_lfree := none,
    cv_setupNonNull := 0, cv_maxcor := 0, cv_maxNumSteps := 0,
    cv_ls := none, cv_lmem := none, cv_lastStep := 0 }

/-- Model of `CVodeInit(mem, rhs, t0, y0)`: record the RHS callback, the initial
time and the initial state. -/
def CVodeInit (m : CVodeMem) (rhs : RhsFn) (t0 : R) (y0 : NVector) :
    CVodeMem × Int :=
  ({ m with cv_rhs := some rhs, cv_tn := t0, cv_zn0 := y0 }, 0)

/-- Model of `CVodeReInit(mem, t0, y0)`: reset time and state, keep the RHS. -/
def CVodeReInit (m : CVodeMem) (t0 : R) (y0 : NVector) : CVodeMem × Int :=
  ({ m with cv_tn := t0, cv_zn0 := y0 }, 0)

/-- Model of `CVodeSStolerances(mem, reltol, abstol)`. -/
def CVodeSStolerances (m : CVodeMem) (reltol abstol : R) : CVodeMem × Int :=
  ({ m with cv_reltol := reltol, cv_abstol := abstol }, 0)

/-- Model of `CVodeSetUserData(mem, f)`. -/
def CVodeSetUserData (m : CVodeMem) (ud : Option TimeDependentOperator) :
    CVodeMem × Int :=
  ({ m with cv_user_data := ud }, 0)

/-- Model of `CVodeSetMaxNumSteps(mem, n)`. -/
def CVodeSetMaxNumSteps (m : CVodeMem) (n : Int) : CVodeMem :=
  { m with cv_maxNumSteps := n }

/-- Model of `CVBand(mem, n, mu, ml)`: attach the banded direct solver. -/
def CVBand (m : CVodeMem) (n mu ml : R) : CVodeMem :=
  { m with cv_ls := some (LinModule.band n mu ml) }

/-- Model of `CVodeGetLastStep(mem, &dt)`: the last internal step size the
integrator recorded, plus a return flag. -/
def CVodeGetLastStep (m : CVodeMem) : R × Int :=
  (m.cv_lastStep, 0)

/-- The behaviour of one external integration call (`CVode` / `ARKode`):
given the current internal time and the target time, the achieved time,
the recorded last step size, and the state data written into the state
buffer.  The adapter is verified for every oracle. -/
structure StepOracle where
  achieved : R → R → R
  hlast : R → R → R
  out : R → R → List R

/-- Model of `CVode(mem, tout, y, &tret, CV_NORMAL)`: the external integrator
advances toward `tout`, writes the result into the buffer of `y`, records
its last step size, and returns the achieved time. -/
def CVode (ora : StepOracle) (m : CVodeMem) (tout : R) (y : NVector)
    (heap : DataHeap) : CVodeMem × DataHeap × R × Int :=
  let tret := ora.achieved m.cv_tn tout
  let hl := ora.hlast m.cv_tn tout
  ({ m with cv_tn := tret, cv_lastStep := hl },
   heap.update y.dataPtr (ora.out m.cv_tn tout), tret, 0)

/-- The external `ARKodeMem` struct, restricted to the fields this file
reads or writes. -/
structure ARKodeMem where
  ark_tn : R
  ark_gamma : R
  ark_fe : Option RhsFn
  ark_fi : Option RhsFn
  ark_y0 : NVector
  ark_user_data : Option TimeDependentOperator
  ark_reltol : R
  ark_abstol : R
  ark_linit : Option ARKHook
  ark_lsetup : Option ARKHook
  ark_lsolve : Option ARKHook
  ark_lfree : Option ARKHook
  ark_lsolve_type : Int
  ark_linear : Bool
  ark_setupNonNull : Int
  ark_msbp : Int
  ark_maxNumSteps : Int
  ark_lmem : Option MFEMLinearSolverMemory
  ark_lastStep : R
  ark_y : NVector
  ark_erkTableNum : Option Int
  ark_fixedStep : Option R

/-- Model of `ARKodeCreate()`: fresh integrator memory, defaults abstracted. -/
def ARKodeCreate : ARKodeMem :=
  { ark_tn := 0, ark_gamma := 0, ark_fe := none, ark_fi := none,
    ark_y0 := { dataPtr := 0, length := 0 }, ark_user_data := none,
    ark_reltol := 0, ark_abstol := 0,
    ark_linit := none, ark_lsetup := none, ark_lsolve := none,
    ark_lfree := none, ark_lsolve_type := 0, ark_linear := false,
    ark_setupNonNull := 0, ark_msbp := 0, ark_maxNumSteps := 0,
    ark_lmem := none, ark_lastStep := 0,
    ark_y := { dataPtr := 0, length := 0 },
    ark_erkTableNum := none, ark_fixedStep := none }

/-- Model of `ARKodeInit(mem, fe, fi, t0, y0)`: record the explicit and implicit
RHS callbacks, the initial time and the initial state. -/
def ARKodeInit (m : ARKodeMem) (fe fi : Option RhsFn) (t0 : R)
    (y0 : NVector) : ARKodeMem × Int :=
  ({ m with ark_fe := fe, ark_fi := fi, ark_tn := t0, ark_y0 := y0,
            ark_y := y0 }, 0)

/-- Model of `ARKodeReInit(mem, fe, fi, t0, y0)`. -/
def ARKodeReInit (m : ARKodeMem) (fe fi : Option RhsFn) (t0 : R)
    (y0 : NVector) : ARKodeMem × Int :=
  ({ m with ark_fe := fe, ark_fi := fi, ark_tn := t0, ark_y0 := y0,
            ark_y := y0 }, 0)

/-- Model of `ARKodeSStolerances(mem, reltol, abstol)`. -/
def ARKodeSStolerances (m : ARKodeMem) (reltol abstol : R) :
    ARKodeMem × Int :=
  ({ m with ark_reltol := reltol, ark_abstol := abstol }, 0)

/-- Model of `ARKodeSetUserData(mem, f)`. -/
def ARKodeSetUserData (m : ARKodeMem) (ud : Option TimeDependentOperator) :
    ARKodeMem × Int :=
  ({ m with ark_user_data := ud }, 0)

/-- Model of `ARKodeSetMaxNumSteps(mem, n)`. -/
def ARKodeSetMaxNumSteps (m : ARKodeMem) (n : Int) : ARKodeMem :=
  { m with ark_maxNumSteps := n }

/-- Model of `ARKodeSetERKTableNum(mem, n)`. -/
def ARKodeSetERKTableNum (m : ARKodeMem) (n : Int) : ARKodeMem :=
  { m with ark_erkTableNum := some n }

/-- Model of `ARKodeSetFixedStep(mem, dt)`. -/
def ARKodeSetFixedStep (m : ARKodeMem) (dt : R) : ARKodeMem :=
  { m with ark_fixedStep := some dt }

/-- Model of `ARKode(mem, tout, y, &tret, ARK_NORMAL)`: the external integrator
advances toward `tout`, writes the result into the buffer of `y`, records
its last step size, and returns the achieved time. -/
def ARKode (ora : StepOracle) (m : ARKodeMem) (tout : R) (y : NVector)
    (heap : DataHeap) : ARKodeMem × DataHeap × R × Int :=
  let tret := ora.achieved m.ark_tn tout
  let hl := ora.hlast m.ark_tn tout
  ({ m with ark_tn := tret, ark_lastStep := hl },
   heap.update y.dataPtr (ora.out m.ark_tn tout), tret, 0)

/-- Model of `ARKodeGetLastStep(mem, &dt)`. -/
def ARKodeGetLastStep (m : ARKodeMem) : R × Int :=
  (m.ark_lastStep, 0)

/-- Model of `WrapLinearSolveSetup(lmem, tn, ypred, fpred)`: a no-op returning 0. -/
def WrapLinearSolveSetup (_tn : R) (_ypred _fpred : MVector) : Int :=
  0

/-- Model of `WrapLinearSolve(lmem, tn, b, ycur, yn, fcur)`: redirect to the
caller-supplied operator by calling
`op_for_gradient->SolveJacobian(b, ycur, yn, J_solve, weight)` (recorded
as an event), returning 0. -/
def WrapLinearSolve (lmem : MFEMLinearSolverMemory) (_tn : R)
    (b ycur yn _fcur : MVector) : List Event × Int :=
  ([Event.solveJacobian lmem.op_for_gradient b ycur yn lmem.J_solve
      lmem.weight], 0)

/-- Model of `WrapLinearCVSolveInit(cv_mem)`: a no-op returning 0. -/
def WrapLinearCVSolveInit (_cv : CVodeMem) : Int :=
  0

/-- Model of `WrapLinearCVSolveSetup(cv_mem, convfail, ypred, fpred, ...)`:
`lmem` is the value of `cv_mem->cv_lmem` (the C code casts it without a
null check, so it is passed explicitly here).  The setup vectors are made
to alias the data of `ypred` and `fpred`, `*jcurPtr` is set to `TRUE`
(not part of the state modelled), and `WrapLinearSolveSetup` is called. -/
def WrapLinearCVSolveSetup (cv : CVodeMem) (lmem : MFEMLinearSolverMemory)
    (ypred fpred : NVector) : CVodeMem × Int :=
  let lmem1 := { lmem with
    setup_y := { dataPtr := ypred.dataPtr, size := ypred.length },
    setup_f := { dataPtr := fpred.dataPtr, size := fpred.length } }
  let _ := WrapLinearSolveSetup cv.cv_tn lmem1.setup_y lmem1.setup_f
  ({ cv with cv_lmem := some lmem1 }, 0)

/-- Model of `WrapLinearCVSolve(cv_mem, b, weight, ycur, fcur)`: `lmem` is the
value of `cv_mem->cv_lmem`.  The solve vectors are made to alias the
data of `ycur`, `cv_zn[0]`, `fcur` and `b`, the weight is set to the
integrator's current `cv_gamma`, and `WrapLinearSolve` is invoked with
`(b, ycur, setup_y, fcur)`. -/
def WrapLinearCVSolve (cv : CVodeMem) (lmem : MFEMLinearSolverMemory)
    (b ycur fcur : NVector) : CVodeMem × List Event × Int :=
  let lmem1 := { lmem with
    solve_y := { dataPtr := ycur.dataPtr, size := ycur.length },
    solve_yn := { dataPtr := cv.cv_zn0.dataPtr, size := ycur.length },
    solve_f := { dataPtr := fcur.dataPtr, size := fcur.length },
    solve_b := { dataPtr := b.dataPtr, size := b.length },
    weight := cv.cv_gamma }
  let cv1 := { cv with cv_lmem := some lmem1 }
  let (evs, _r) := WrapLinearSolve lmem1 cv1.cv_tn lmem1.solve_b
    lmem1.solve_y lmem1.setup_y lmem1.solve_f
  (cv1, evs, 0)

/-- Model of `MFEMLinearCVSolve(cvode_mem, solve, op)`: call the existing `lfree`
hook if non-null, install the four wrapper hooks, force a setup before
every solve (`setupNonNull = 1`, `maxcor = 1`), allocate the MFEM linear
solver memory holding `solve` and `op`, and store it in `cv_lmem`.
Freshly allocated empty `mfem::Vector`s are modelled with address 0. -/
def MFEMLinearCVSolve (cv : CVodeMem) (solve op : Nat) :
    CVodeMem × List Event × Int :=
  let evs := match cv.cv_lfree with
    | some hk => [Event.cvFreeHookCalled hk]
    | none => []
  let cv1 := { cv with
    cv_linit := some CVHook.wrapLinearCVSolveInit,
    cv_lsetup := some CVHook.wrapLinearCVSolveSetup,
    cv_lsolve := some CVHook.wrapLinearCVSolve,
    cv_lfree := some CVHook.wrapLinearCVSolveFree,
    cv_setupNonNull := 1,
    cv_maxcor := 1 }
  let lmem : MFEMLinearSolverMemory := {
    setup_y := { dataPtr := 0, size := 0 },
    setup_f := { dataPtr := 0, size := 0 },
    solve_y := { dataPtr := 0, size := 0 },
    solve_yn := { dataPtr := 0, size := 0 },
    solve_f := { dataPtr := 0, size := 0 },
    solve_b := { dataPtr := 0, size := 0 },
    vec_tmp := { dataPtr := 0, size := cv1.cv_zn0.length },
    J_solve := solve,
    op_for_gradient := op,
    weight := 0 }
  ({ cv1 with cv_lmem := some lmem }, evs, 0)

/-- Model of `WrapLinearARKSolveInit(ark_mem)`: a no-op returning 0. -/
def WrapLinearARKSolveInit (_ark : ARKodeMem) : Int :=
  0

/-- Model of `WrapLinearARKSolveSetup(ark_mem, convfail, ypred, fpred, ...)`:
`lmem` is the value of `ark_mem->ark_lmem`. -/
def WrapLinearARKSolveSetup (ark : ARKodeMem)
    (lmem : MFEMLinearSolverMemory) (ypred fpred : NVector) :
    ARKodeMem × Int :=
  let lmem1 := { lmem with
    setup_y := { dataPtr := ypred.dataPtr, size := ypred.length },
    setup_f := { dataPtr := fpred.dataPtr, size := fpred.length } }
  let _ := WrapLinearSolveSetup ark.ark_tn lmem1.setup_y lmem1.setup_f
  ({ ark with ark_lmem := some lmem1 }, 0)

/-- Model of `WrapLinearARKSolve(ark_mem, b, weight, ycur, fcur)`: `lmem` is the
value of `ark_mem->ark_lmem`.  Only when the integrator's internal time
`ark_tn` is strictly positive are the solve vectors aliased, the weight
set to `ark_gamma`, and `WrapLinearSolve` invoked; otherwise the state is
left untouched and 0 is returned. -/
def WrapLinearARKSolve (ark : ARKodeMem) (lmem : MFEMLinearSolverMemory)
    (b ycur fcur : NVector) : ARKodeMem × List Event × Int :=
  if 0 < ark.ark_tn then
    let lmem1 := { lmem with
      solve_y := { dataPtr := ycur.dataPtr, size := ycur.length },
      solve_yn := { dataPtr := ark.ark_y.dataPtr, size := ycur.length },
      solve_f := { dataPtr := fcur.dataPtr, size := fcur.length },
      solve_b := { dataPtr := b.dataPtr, size := b.length },
      weight := ark.ark_gamma }
    let ark1 := { ark with ark_lmem := some lmem1 }
    let (evs, _r) := WrapLinearSolve lmem1 ark1.ark_tn lmem1.solve_b
      lmem1.solve_y lmem1.setup_y lmem1.solve_f
    (ark1, evs, 0)
  else
    (ark, [], 0)

/-- Model of `MFEMLinearARKSolve(arkode_mem, solve, op)`: call the existing
`lfree` hook if non-null, install the four wrapper hooks, mark the solve
linear (`lsolve_type = 0`, `linear = TRUE`, `setupNonNull = 1`,
`msbp = 0` forces a setup before every solve), allocate the MFEM linear
solver memory holding `solve` and `op`, and store it in `ark_lmem`. -/
def MFEMLinearARKSolve (ark : ARKodeMem) (solve op : Nat) :
    ARKodeMem × List Event × Int :=
  let evs := match ark.ark_lfree with
    | some hk => [Event.arkFreeHookCalled hk]
    | none => []
  let ark1 := { ark with
    ark_linit := some ARKHook.wrapLinearARKSolveInit,
    ark_lsetup := some ARKHook.wrapLinearARKSolveSetup,
    ark_lsolve := some ARKHook.wrapLinearARKSolve,
    ark_lfree := some ARKHook.wrapLinearARKSolveFree,
    ark_lsolve_type := 0,
    ark_linear := true,
    ark_setupNonNull := 1,
    ark_msbp := 0 }
  let lmem : MFEMLinearSolverMemory := {
    setup_y := { dataPtr := 0, size := 0 },
    setup_f := { dataPtr := 0, size := 0 },
    solve_y := { dataPtr := 0, size := 0 },
    solve_yn := { dataPtr := 0, size := 0 },
    solve_f := { dataPtr := 0, size := 0 },
    solve_b := { dataPtr := 0, size := 0 },
    vec_tmp := { dataPtr := 0, size := 0 },
    J_solve := solve,
    op_for_gradient := op,
    weight := 0 }
  ({ ark1 with ark_lmem := some lmem }, evs, 0)

/-- The `mfem::CVODESolver` adapter: the base-class operator pointer `f`,
the wrapped state vector `y`, the external solver memory `ode_mem`
(`none` models a null pointer), and the two scalar members. -/
structure CVODESolver where
  f : Option TimeDependentOperator
  y : NVector
  ode_mem : Option CVodeMem
  tolerances_set_sundials : Bool
  solver_iteration_type : Nat

/-- Model of `CVODESolver::CreateNVector` (serial): wrap the mfem vector's buffer
in a serial `N_Vector`, no copy. -/
def CVODESolver.CreateNVector (s : CVODESolver) (yv : MVector) :
    CVODESolver :=
  { s with y := N_VMake_Serial yv.size yv.dataPtr }

/-- Model of `CVODESolver::TransferNVectorShallow` (serial):
`NV_DATA_S(_y) = _x->GetData()`, a pointer assignment only. -/
def CVODESolver.TransferNVectorShallow (x : MVector) (y : NVector) :
    NVector :=
  { y with dataPtr := x.dataPtr }

/-- The serial constructor `CVODESolver(Vector&, lmm, iter)`: wrap the
state vector and create the solver memory. -/
def CVODESolver.construct (yv : MVector) (lmm iter : Nat) : CVODESolver :=
  { f := none,
    y := N_VMake_Serial yv.size yv.dataPtr,
    ode_mem := some (CVodeCreate lmm iter),
    tolerances_set_sundials := false,
    solver_iteration_type := iter }

/-- Model of `CVODESolver::SetSStolerances(reltol, abstol)`: forward the scalar
tolerances to the external solver and set the member flag. -/
def CVODESolver.SetSStolerances (s : CVODESolver) (reltol abstol : R) :
    CVODESolver :=
  { s with
    ode_mem := s.ode_mem.map (fun m => (CVodeSStolerances m reltol abstol).1),
    tolerances_set_sundials := true }

/-- Model of `CVODESolver::Init(f)`: register the trampoline, the wrapped state
vector and initial time 0, set default tolerances, register `f` as user
data; with `CV_NEWTON` iteration additionally tighten the tolerances and
attach the banded solver (serial build). -/
def CVODESolver.Init (s0 : CVODESolver) (f1 : TimeDependentOperator) :
    CVODESolver :=
  let s1 := { s0 with f := some f1 }
  let s2 := { s1 with
    ode_mem := s1.ode_mem.map
      (fun m => (CVodeInit m RhsFn.sundialsMult 0 s1.y).1) }
  let s3 := s2.SetSStolerances RELTOL ABSTOL
  let s4 := { s3 with
    ode_mem := s3.ode_mem.map (fun m => (CVodeSetUserData m s3.f).1) }
  if s4.solver_iteration_type = CV_NEWTON then
    let size : R := ((f1.Width : Nat) : R)
    let s5 := s4.SetSStolerances (1 / 1000) (1 / 1000000)
    { s5 with
      ode_mem := s5.ode_mem.map
        (fun m => CVBand m size (size * (1 / 2)) (size * (1 / 2))) }
  else s4

/-- Model of `CVODESolver::ReInit(f, y, t)`: re-wrap the state vector, re-init the
external memory at time `t`, re-register the user data; the `CV_NEWTON`
branch as in `Init`. -/
def CVODESolver.ReInit (s0 : CVODESolver) (f1 : TimeDependentOperator)
    (yv : MVector) (t : R) : CVODESolver :=
  let s1 := { s0 with f := some f1 }
  let s2 := s1.CreateNVector yv
  let s3 := { s2 with
    ode_mem := s2.ode_mem.map (fun m => (CVodeReInit m t s2.y).1) }
  let s4 := { s3 with
    ode_mem := s3.ode_mem.map (fun m => (CVodeSetUserData m s3.f).1) }
  if s4.solver_iteration_type = CV_NEWTON then
    let size : R := ((f1.Width : Nat) : R)
    let s5 := s4.SetSStolerances (1 / 1000) (1 / 1000000)
    { s5 with
      ode_mem := s5.ode_mem.map
        (fun m => CVBand m size (size * (1 / 2)) (size * (1 / 2))) }
  else s4

/-- Model of `CVODESolver::Step(x, t, dt)`: alias the wrapped `N_Vector` to the
data of `x`, ask the external integrator to advance to `t + dt`, store
the achieved time into `t` and the last step size into `dt`.  Returns
(adapter, t, dt, heap, events). -/
def CVODESolver.Step (ora : StepOracle) (s0 : CVODESolver) (x : MVector)
    (t dt : R) (heap : DataHeap) :
    CVODESolver × R × R × DataHeap × List Event :=
  let s1 := { s0 with y := CVODESolver.TransferNVectorShallow x s0.y }
  let tout := t + dt
  match s1.ode_mem with
  | none => (s1, t, dt, heap, [])
  | some m =>
    let (m1, heap1, tret, _flag) := CVode ora m tout s1.y heap
    let (hlast, _flag2) := CVodeGetLastStep m1
    ({ s1 with ode_mem := some m1 }, tret, hlast, heap1,
     [Event.advance tout tret hlast])

/-- Model of `CVODESolver::SetLinearSolve(J_solve, op)`: with `CV_FUNCTIONAL`
iteration, free and recreate the memory as `CV_BDF`/`CV_NEWTON`,
re-init at the previously reached internal time and re-register the user
data and default tolerances; then raise the step limit, set the solve
tolerances, and install the MFEM linear-solve shim.  The member
`solver_iteration_type` is never written.  (The C code dereferences
`ode_mem` unconditionally; a null memory is left unchanged here.) -/
def CVODESolver.SetLinearSolve (s0 : CVODESolver) (solve op : Nat) :
    CVODESolver × List Event :=
  match s0.ode_mem with
  | none => (s0, [])
  | some m =>
    let (s1, evs1) :=
      if s0.solver_iteration_type = CV_FUNCTIONAL then
        let t0 := m.cv_tn
        let sA := { s0 with
          ode_mem := some (CVodeCreate CV_BDF CV_NEWTON),
          tolerances_set_sundials := false }
        let sB := { sA with
          ode_mem := sA.ode_mem.map
            (fun mm => (CVodeInit mm RhsFn.sundialsMult t0 sA.y).1) }
        let sC := { sB with
          ode_mem := sB.ode_mem.map
            (fun mm => (CVodeSetUserData mm sB.f).1) }
        let sD := if ¬ sC.tolerances_set_sundials then
            sC.SetSStolerances RELTOL ABSTOL
          else sC
        (sD, [Event.cvodeFree])
      else (s0, [])
    let s2 := { s1 with
      ode_mem := s1.ode_mem.map (fun mm => CVodeSetMaxNumSteps mm 10000) }
    let s3 := s2.SetSStolerances (1 / 100) (1 / 10000)
    match s3.ode_mem with
    | none => (s3, evs1)
    | some mm =>
      let (mm1, evs2, _r) := MFEMLinearCVSolve mm solve op
      ({ s3 with ode_mem := some mm1 }, evs1 ++ evs2)

/-- The destructor `CVODESolver::~CVODESolver()`: destroy the wrapped
`N_Vector`, then free the solver memory only when `ode_mem` is
non-null.  The emitted events record the two teardown calls. -/
def CVODESolver.destruct (s : CVODESolver) : List Event :=
  Event.destroyNVector s.y ::
    (match s.ode_mem with
     | some _ => [Event.cvodeFree]
     | none => [])

/-- The `mfem::ARKODESolver` adapter. -/
structure ARKODESolver where
  f : Option TimeDependentOperator
  y : NVector
  ode_mem : Option ARKodeMem
  tolerances_set_sundials : Bool
  use_explicit : Bool

/-- Model of `ARKODESolver::CreateNVector` (serial). -/
def ARKODESolver.CreateNVector (s : ARKODESolver) (yv : MVector) :
    ARKODESolver :=
  { s with y := N_VMake_Serial yv.size yv.dataPtr }

/-- Model of `ARKODESolver::TransferNVectorShallow` (serial). -/
def ARKODESolver.TransferNVectorShallow (x : MVector) (y : NVector) :
    NVector :=
  { y with dataPtr := x.dataPtr }

/-- The serial constructor `ARKODESolver(Vector&, use_explicit)`. -/
def ARKODESolver.construct (yv : MVector) (useExplicit : Bool) :
    ARKODESolver :=
  { f := none,
    y := N_VMake_Serial yv.size yv.dataPtr,
    ode_mem := some ARKodeCreate,
    tolerances_set_sundials := false,
    use_explicit := useExplicit }

/-- Model of `ARKODESolver::SetSStolerances(reltol, abstol)`. -/
def ARKODESolver.SetSStolerances (s : ARKODESolver) (reltol abstol : R) :
    ARKODESolver :=
  { s with
    ode_mem := s.ode_mem.map (fun m => (ARKodeSStolerances m reltol abstol).1),
    tolerances_set_sundials := true }

/-- Model of `ARKODESolver::Init(f)`: register the trampoline as explicit RHS when
`use_explicit` is set and as implicit RHS otherwise, with the wrapped
state vector and initial time 0; set default tolerances and user data. -/
def ARKODESolver.Init (s0 : ARKODESolver) (f1 : TimeDependentOperator) :
    ARKODESolver :=
  let s1 := { s0 with f := some f1 }
  let s2 := { s1 with
    ode_mem := s1.ode_mem.map (fun m =>
      (if s1.use_explicit then
        ARKodeInit m (some RhsFn.sundialsMult) none 0 s1.y
      else
        ARKodeInit m none (some RhsFn.sundialsMult) 0 s1.y).1) }
  let s3 := s2.SetSStolerances RELTOL ABSTOL
  { s3 with
    ode_mem := s3.ode_mem.map (fun m => (ARKodeSetUserData m s3.f).1) }

/-- Model of `ARKODESolver::ReInit(f, y, t)`. -/
def ARKODESolver.ReInit (s0 : ARKODESolver) (f1 : TimeDependentOperator)
    (yv : MVector) (t : R) : ARKODESolver :=
  let s1 := { s0 with f := some f1 }
  let s2 := s1.CreateNVector yv
  let s3 := { s2 with
    ode_mem := s2.ode_mem.map (fun m =>
      (if s2.use_explicit then
        ARKodeReInit m (some RhsFn.sundialsMult) none t s2.y
      else
        ARKodeReInit m none (some RhsFn.sundialsMult) t s2.y).1) }
  { s3 with
    ode_mem := s3.ode_mem.map (fun m => (ARKodeSetUserData m s3.f).1) }

/-- Model of `ARKODESolver::Step(x, t, dt)`. -/
def ARKODESolver.Step (ora : StepOracle) (s0 : ARKODESolver) (x : MVector)
    (t dt : R) (heap : DataHeap) :
    ARKODESolver × R × R × DataHeap × List Event :=
  let s1 := { s0 with y := ARKODESolver.TransferNVectorShallow x s0.y }
  let tout := t + dt
  match s1.ode_mem with
  | none => (s1, t, dt, heap, [])
  | some m =>
    let (m1, heap1, tret, _flag) := ARKode ora m tout s1.y heap
    let (hlast, _flag2) := ARKodeGetLastStep m1
    ({ s1 with ode_mem := some m1 }, tret, hlast, heap1,
     [Event.advance tout tret hlast])

/-- Model of `ARKODESolver::WrapSetERKTableNum(table_num)`. -/
def ARKODESolver.WrapSetERKTableNum (s : ARKODESolver) (tableNum : Int) :
    ARKODESolver :=
  { s with ode_mem := s.ode_mem.map (fun m => ARKodeSetERKTableNum m tableNum) }

/-- Model of `ARKODESolver::WrapSetFixedStep(dt)`. -/
def ARKODESolver.WrapSetFixedStep (s : ARKODESolver) (dt : R) :
    ARKODESolver :=
  { s with ode_mem := s.ode_mem.map (fun m => ARKodeSetFixedStep m dt) }

/-- Model of `ARKODESolver::SetLinearSolve(solve, op)`: with `use_explicit` set,
free and recreate the memory, clear the tolerance flag, set
`use_explicit` to false, and re-init at the previously reached internal
time; the init ternary is evaluated after the flag change, so the
trampoline lands in the implicit slot.  Then raise the step limit, set
the solve tolerances, and install the MFEM linear-solve shim.  (The C
code dereferences `ode_mem` unconditionally; a null memory is left
unchanged here.) -/
def ARKODESolver.SetLinearSolve (s0 : ARKODESolver) (solve op : Nat) :
    ARKODESolver × List Event :=
  match s0.ode_mem with
  | none => (s0, [])
  | some m =>
    let (s1, evs1) :=
      if s0.use_explicit then
        let t0 := m.ark_tn
        let sA := { s0 with
          ode_mem := some ARKodeCreate,
          tolerances_set_sundials := false,
          use_explicit := false }
        let sB := { sA with
          ode_mem := sA.ode_mem.map (fun mm =>
            (if sA.use_explicit then
              ARKodeInit mm (some RhsFn.sundialsMult) none t0 sA.y
            else
              ARKodeInit mm none (some RhsFn.sundialsMult) t0 sA.y).1) }
        let sC := { sB with
          ode_mem := sB.ode_mem.map
            (fun mm => (ARKodeSetUserData mm sB.f).1) }
        let sD := if ¬ sC.tolerances_set_sundials then
            sC.SetSStolerances RELTOL ABSTOL
          else sC
        (sD, [Event.arkodeFree])
      else (s0, [])
    let s2 := { s1 with
      ode_mem := s1.ode_mem.map (fun mm => ARKodeSetMaxNumSteps mm 10000) }
    let s3 := s2.SetSStolerances (1 / 100) (1 / 10000)
    match s3.ode_mem with
    | none => (s3, evs1)
    | some mm =>
      let (mm1, evs2, _r) := MFEMLinearARKSolve mm solve op
      ({ s3 with ode_mem := some mm1 }, evs1 ++ evs2)

/-- The destructor `ARKODESolver::~ARKODESolver()`. -/
def ARKODESolver.destruct (s : ARKODESolver) : List Event :=
  Event.destroyNVector s.y ::
    (match s.ode_mem with
     | some _ => [Event.arkodeFree]
     | none => [])

/-- Invoke the lsolve hook currently installed in an ARKODE memory, the
way the external integrator does inside a Newton iteration: dispatch on
the stored hook pointer, handing it the stored `ark_lmem`.  A memory
whose hook or lmem is missing, or whose hook is not the MFEM wrapper, is
rejected with flag -1. -/
def ARKodeMem.invokeLsolve (m : ARKodeMem) (b ycur fcur : NVector) :
    ARKodeMem × List Event × Int :=
  match m.ark_lsolve, m.ark_lmem with
  | some ARKHook.wrapLinearARKSolve, some lm =>
    WrapLinearARKSolve m lm b ycur fcur
  | _, _ => (m, [], -1)

/-- Invoke the lsolve hook installed in an adapter's solver memory,
returning the emitted events and the hook's return flag. -/
def ARKODESolver.invokeInstalledLsolve (s : ARKODESolver)
    (b ycur fcur : NVector) : List Event × Int :=
  match s.ode_mem with
  | some m => ((m.invokeLsolve b ycur fcur).2.1, (m.invokeLsolve b ycur fcur).2.2)
  | none => ([], -2)

end mfem

namespace mfem

/-- C1: for every time `t` and state vector `y`, the RHS trampoline
`SundialsMult` first sets the wrapped operator's time to `t`, then
applies the operator to the data of `y`, writing the result into the
data of `ydot` (computing `ydot = f(t, y)`) and leaving every other
buffer untouched, and returns 0. -/
theorem C1_sundialsMult_trampoline (t : R) (y ydot : NVector)
    (heap : DataHeap) (f : TimeDependentOperator) :
    (SundialsMult t y ydot heap f).1 = f.SetTime t ∧
    (SundialsMult t y ydot heap f).2.1 ydot.dataPtr = f.fn t (heap y.dataPtr) ∧
    (∀ p, p ≠ ydot.dataPtr → (SundialsMult t y ydot heap f).2.1 p = heap p) ∧
    (SundialsMult t y ydot heap f).2.2 = 0 := by
  refine ⟨rfl, ?_, ?_, rfl⟩
  · simp [SundialsMult, DataHeap.update, TimeDependentOperator.Mult,
      TimeDependentOperator.SetTime]
  · intro p hp
    simp [SundialsMult, DataHeap.update, hp]

/-- Witness for C1 at a concrete input: the trampoline writes
`f(2, [3, 4]) = [5, 6]` into the buffer of `ydot` (address 5), leaves the
buffer of `y` (address 1) unchanged, and returns 0. -/
theorem C1_sundialsMult_trampoline_witness :
    (SundialsMult 2 ⟨1, 2⟩ ⟨5, 2⟩ (fun _ => [3, 4])
      ⟨0, 2, fun s xs => xs.map (fun a => a + s)⟩).2.1 5 = [5, 6] ∧
    (SundialsMult 2 ⟨1, 2⟩ ⟨5, 2⟩ (fun _ => [3, 4])
      ⟨0, 2, fun s xs => xs.map (fun a => a + s)⟩).2.1 1 = [3, 4] ∧
    (SundialsMult 2 ⟨1, 2⟩ ⟨5, 2⟩ (fun _ => [3, 4])
      ⟨0, 2, fun s xs => xs.map (fun a => a + s)⟩).2.2 = 0 := by
  have h := C1_sundialsMult_trampoline 2 ⟨1, 2⟩ ⟨5, 2⟩ (fun _ => [3, 4])
    ⟨0, 2, fun s xs => xs.map (fun a => a + s)⟩
  refine ⟨?_, ?_, h.2.2.2⟩
  · rw [h.2.1]; norm_num
  · exact h.2.2.1 1 (by decide)

/-- C2: for every call to `Step(x, t, dt)` on either solver adapter
(with live solver memory), the adapter asks the external stepper to
advance to the target time `t + dt` (the recorded `advance` event), then
stores the achieved time into `t` and the step size recorded by the
external stepper into `dt`. -/
theorem C2_step_targets_t_plus_dt (ora : StepOracle) (sc : CVODESolver)
    (sa : ARKODESolver) (x : MVector) (t dt : R) (heap : DataHeap)
    (mc : CVodeMem) (ma : ARKodeMem)
    (hc : sc.ode_mem = some mc) (ha : sa.ode_mem = some ma) :
    ((CVODESolver.Step ora sc x t dt heap).2.2.2.2 =
      [Event.advance (t + dt) (ora.achieved mc.cv_tn (t + dt))
        (ora.hlast mc.cv_tn (t + dt))] ∧
     (CVODESolver.Step ora sc x t dt heap).2.1 =
      ora.achieved mc.cv_tn (t + dt) ∧
     (CVODESolver.Step ora sc x t dt heap).2.2.1 =
      ora.hlast mc.cv_tn (t + dt)) ∧
    ((ARKODESolver.Step ora sa x t dt heap).2.2.2.2 =
      [Event.advance (t + dt) (ora.achieved ma.ark_tn (t + dt))
        (ora.hlast ma.ark_tn (t + dt))] ∧
     (ARKODESolver.Step ora sa x t dt heap).2.1 =
      ora.achieved ma.ark_tn (t + dt) ∧
     (ARKODESolver.Step ora sa x t dt heap).2.2.1 =
      ora.hlast ma.ark_tn (t + dt)) := by
  constructor
  · simp [CVODESolver.Step, CVode, CVodeGetLastStep, hc]
  · simp [ARKODESolver.Step, ARKode, ARKodeGetLastStep, ha]

/-- Witness for C2 at concrete inputs: with an oracle that achieves the
target exactly and records step size 1, stepping from `t = 0` with
`dt = 1/2` returns `t = 1/2` and `dt = 1` on both adapters. -/
theorem C2_step_targets_t_plus_dt_witness :
    (CVODESolver.Step ⟨fun _ tout => tout, fun _ _ => 1, fun _ _ => [5]⟩
      (CVODESolver.construct ⟨1, 2⟩ CV_ADAMS CV_FUNCTIONAL) ⟨7, 2⟩ 0 (1 / 2)
      (fun _ => [])).2.1 = 1 / 2 ∧
    (ARKODESolver.Step ⟨fun _ tout => tout, fun _ _ => 1, fun _ _ => [5]⟩
      (ARKODESolver.construct ⟨1, 2⟩ true) ⟨7, 2⟩ 0 (1 / 2)
      (fun _ => [])).2.2.1 = 1 := by
  have h := C2_step_targets_t_plus_dt
    ⟨fun _ tout => tout, fun _ _ => 1, fun _ _ => [5]⟩
    (CVODESolver.construct ⟨1, 2⟩ CV_ADAMS CV_FUNCTIONAL)
    (ARKODESolver.construct ⟨1, 2⟩ true) ⟨7, 2⟩ 0 (1 / 2) (fun _ => [])
    (CVodeCreate CV_ADAMS CV_FUNCTIONAL) ARKodeCreate rfl rfl
  exact ⟨h.1.2.1.trans (by norm_num), h.2.2.2⟩

/-- C3 counterexample: the claim says that on every solver adapter with
`SetLinearSolve` called, every subsequent invocation of the installed
solve hook calls `op->SolveJacobian`.  On the ARKODE adapter this fails:
construct an explicit adapter (internal time 0), call
`SetLinearSolve(7, 9)`, and invoke the installed solve hook; the guard
`ark_tn > 0` makes it return 0 with no `SolveJacobian` call at all. -/
theorem C3_hooks_counterexample :
    (((ARKODESolver.construct ⟨1, 2⟩ true).SetLinearSolve 7 9).1.ode_mem.map
      (fun m => m.ark_lsolve)) = some (some ARKHook.wrapLinearARKSolve) ∧
    ((ARKODESolver.construct ⟨1, 2⟩ true).SetLinearSolve 7 9).1.invokeInstalledLsolve
      ⟨3, 2⟩ ⟨4, 2⟩ ⟨5, 2⟩ = ([], 0) := by
  constructor
  · rfl
  · decide

/-- C3 (amended): on every solver adapter on which `SetLinearSolve` has
been called, all four linear-solver hook fields of the external solver
memory are replaced by the MFEM wrapper functions, the previously
installed free hook being called first exactly when non-null, and the
installed solver memory carries the caller-supplied solver and operator.
Every subsequent invocation of the installed CVODE solve hook redirects
to the caller-supplied operator by calling `op->SolveJacobian` with the
supplied solver and the stepper's current `gamma` weight; the installed
ARKODE solve hook does the same whenever the stepper's internal time is
strictly positive. -/
theorem C3_hooks_installed_and_redirect (cv : CVodeMem) (ark : ARKodeMem)
    (solve op : Nat) :
    ((MFEMLinearCVSolve cv solve op).1.cv_linit =
        some CVHook.wrapLinearCVSolveInit ∧
      (MFEMLinearCVSolve cv solve op).1.cv_lsetup =
        some CVHook.wrapLinearCVSolveSetup ∧
      (MFEMLinearCVSolve cv solve op).1.cv_lsolve =
        some CVHook.wrapLinearCVSolve ∧
      (MFEMLinearCVSolve cv solve op).1.cv_lfree =
        some CVHook.wrapLinearCVSolveFree ∧
      (MFEMLinearCVSolve cv solve op).2.1 =
        (match cv.cv_lfree with
         | some hk => [Event.cvFreeHookCalled hk]
         | none => []) ∧
      ((MFEMLinearCVSolve cv solve op).1.cv_lmem.map
        (fun lm => (lm.J_solve, lm.op_for_gradient))) = some (solve, op)) ∧
    ((MFEMLinearARKSolve ark solve op).1.ark_linit =
        some ARKHook.wrapLinearARKSolveInit ∧
      (MFEMLinearARKSolve ark solve op).1.ark_lsetup =
        some ARKHook.wrapLinearARKSolveSetup ∧
      (MFEMLinearARKSolve ark solve op).1.ark_lsolve =
        some ARKHook.wrapLinearARKSolve ∧
      (MFEMLinearARKSolve ark solve op).1.ark_lfree =
        some ARKHook.wrapLinearARKSolveFree ∧
      (MFEMLinearARKSolve ark solve op).2.1 =
        (match ark.ark_lfree with
         | some hk => [Event.arkFreeHookCalled hk]
         | none => []) ∧
      ((MFEMLinearARKSolve ark solve op).1.ark_lmem.map
        (fun lm => (lm.J_solve, lm.op_for_gradient))) = some (solve, op)) ∧
    (∀ (m2 : CVodeMem) (lm2 : MFEMLinearSolverMemory) (b ycur fcur : NVector),
      m2.cv_lmem = some lm2 → lm2.J_solve = solve →
      lm2.op_for_gradient = op →
      (WrapLinearCVSolve m2 lm2 b ycur fcur).2.1 =
        [Event.solveJacobian op ⟨b.dataPtr, b.length⟩
          ⟨ycur.dataPtr, ycur.length⟩ lm2.setup_y solve m2.cv_gamma]) ∧
    (∀ (m2 : ARKodeMem) (lm2 : MFEMLinearSolverMemory) (b ycur fcur : NVector),
      m2.ark_lmem = some lm2 → lm2.J_solve = solve →
      lm2.op_for_gradient = op → 0 < m2.ark_tn →
      (WrapLinearARKSolve m2 lm2 b ycur fcur).2.1 =
        [Event.solveJacobian op ⟨b.dataPtr, b.length⟩
          ⟨ycur.dataPtr, ycur.length⟩ lm2.setup_y solve m2.ark_gamma]) := by
  refine ⟨⟨rfl, rfl, rfl, rfl, rfl, rfl⟩, ⟨rfl, rfl, rfl, rfl, rfl, rfl⟩,
    ?_, ?_⟩
  · intro m2 lm2 b ycur fcur _hlm hJ hop
    simp [WrapLinearCVSolve, WrapLinearSolve, hJ, hop]
  · intro m2 lm2 b ycur fcur _hlm hJ hop htn
    simp [WrapLinearARKSolve, WrapLinearSolve, htn, hJ, hop]

/-- Witness for the amended C3 at concrete inputs: installing on fresh
CVODE memory with an externally installed free hook calls that hook; the
CVODE solve hook on a memory with `gamma = 3/2` emits the redirected
`SolveJacobian` call with weight `3/2`; the ARKODE solve hook does the
same once the internal time is positive. -/
theorem C3_hooks_installed_and_redirect_witness :
    (MFEMLinearCVSolve
      { CVodeCreate CV_BDF CV_NEWTON with cv_lfree := some (CVHook.other 4) }
      7 9).2.1 = [Event.cvFreeHookCalled (CVHook.other 4)] ∧
    (WrapLinearCVSolve
      { CVodeCreate CV_BDF CV_NEWTON with
          cv_gamma := 3 / 2,
          cv_lmem := some ⟨⟨0, 0⟩, ⟨0, 0⟩, ⟨0, 0⟩, ⟨0, 0⟩, ⟨0, 0⟩, ⟨0, 0⟩,
            ⟨0, 0⟩, 7, 9, 0⟩ }
      ⟨⟨0, 0⟩, ⟨0, 0⟩, ⟨0, 0⟩, ⟨0, 0⟩, ⟨0, 0⟩, ⟨0, 0⟩, ⟨0, 0⟩, 7, 9, 0⟩
      ⟨3, 2⟩ ⟨4, 2⟩ ⟨5, 2⟩).2.1 =
      [Event.solveJacobian 9 ⟨3, 2⟩ ⟨4, 2⟩ ⟨0, 0⟩ 7 (3 / 2)] ∧
    (WrapLinearARKSolve
      { ARKodeCreate with
          ark_tn := 1,
          ark_gamma := 2,
          ark_lmem := some ⟨⟨0, 0⟩, ⟨0, 0⟩, ⟨0, 0⟩, ⟨0, 0⟩, ⟨0, 0⟩, ⟨0, 0⟩,
            ⟨0, 0⟩, 7, 9, 0⟩ }
      ⟨⟨0, 0⟩, ⟨0, 0⟩, ⟨0, 0⟩, ⟨0, 0⟩, ⟨0, 0⟩, ⟨0, 0⟩, ⟨0, 0⟩, 7, 9, 0⟩
      ⟨3, 2⟩ ⟨4, 2⟩ ⟨5, 2⟩).2.1 =
      [Event.solveJacobian 9 ⟨3, 2⟩ ⟨4, 2⟩ ⟨0, 0⟩ 7 2] := by
  have h := C3_hooks_installed_and_redirect
    { CVodeCreate CV_BDF CV_NEWTON with cv_lfree := some (CVHook.other 4) }
    ARKodeCreate 7 9
  refine ⟨h.1.2.2.2.2.1, ?_, ?_⟩
  · exact h.2.2.1
      { CVodeCreate CV_BDF CV_NEWTON with
          cv_gamma := 3 / 2,
          cv_lmem := some ⟨⟨0, 0⟩, ⟨0, 0⟩, ⟨0, 0⟩, ⟨0, 0⟩, ⟨0, 0⟩, ⟨0, 0⟩,
            ⟨0, 0⟩, 7, 9, 0⟩ }
      ⟨⟨0, 0⟩, ⟨0, 0⟩, ⟨0, 0⟩, ⟨0, 0⟩, ⟨0, 0⟩, ⟨0, 0⟩, ⟨0, 0⟩, 7, 9, 0⟩
      ⟨3, 2⟩ ⟨4, 2⟩ ⟨5, 2⟩ rfl rfl rfl
  · exact h.2.2.2
      { ARKodeCreate with
          ark_tn := 1,
          ark_gamma := 2,
          ark_lmem := some ⟨⟨0, 0⟩, ⟨0, 0⟩, ⟨0, 0⟩, ⟨0, 0⟩, ⟨0, 0⟩, ⟨0, 0⟩,
            ⟨0, 0⟩, 7, 9, 0⟩ }
      ⟨⟨0, 0⟩, ⟨0, 0⟩, ⟨0, 0⟩, ⟨0, 0⟩, ⟨0, 0⟩, ⟨0, 0⟩, ⟨0, 0⟩, 7, 9, 0⟩
      ⟨3, 2⟩ ⟨4, 2⟩ ⟨5, 2⟩ rfl rfl rfl (by norm_num)

/-- C4: for every operator `f`, `Init(f)` initialises the external solver
memory with the RHS trampoline, the adapter's wrapped state vector as
initial state, and initial time 0, and registers `f` as the user data;
on the ARKODE adapter the trampoline lands in the explicit RHS slot when
`use_explicit` is set and in the implicit slot otherwise. -/
theorem C4_init_registers_trampoline (sc : CVODESolver) (sa : ARKODESolver)
    (f1 : TimeDependentOperator) (mc : CVodeMem) (ma : ARKodeMem)
    (hc : sc.ode_mem = some mc) (ha : sa.ode_mem = some ma) :
    (∃ m1, (sc.Init f1).ode_mem = some m1 ∧
      m1.cv_rhs = some RhsFn.sundialsMult ∧ m1.cv_tn = 0 ∧
      m1.cv_zn0 = sc.y ∧ m1.cv_user_data = some f1) ∧
    (sa.use_explicit = true →
      ∃ m1, (sa.Init f1).ode_mem = some m1 ∧
        m1.ark_fe = some RhsFn.sundialsMult ∧ m1.ark_fi = none ∧
        m1.ark_tn = 0 ∧ m1.ark_y0 = sa.y ∧ m1.ark_user_data = some f1) ∧
    (sa.use_explicit = false →
      ∃ m1, (sa.Init f1).ode_mem = some m1 ∧
        m1.ark_fe = none ∧ m1.ark_fi = some RhsFn.sundialsMult ∧
        m1.ark_tn = 0 ∧ m1.ark_y0 = sa.y ∧ m1.ark_user_data = some f1) := by
  refine ⟨?_, ?_, ?_⟩
  · by_cases hit : sc.solver_iteration_type = CV_NEWTON <;>
      simp [CVODESolver.Init, CVODESolver.SetSStolerances, CVodeInit,
        CVodeSStolerances, CVodeSetUserData, CVBand, hc, hit]
  · intro hexp
    simp [ARKODESolver.Init, ARKODESolver.SetSStolerances, ARKodeInit,
      ARKodeSStolerances, ARKodeSetUserData, ha, hexp]
  · intro hexp
    simp [ARKODESolver.Init, ARKODESolver.SetSStolerances, ARKodeInit,
      ARKodeSStolerances, ARKodeSetUserData, ha, hexp]

/-- Witness for C4 at concrete inputs: after `Init` on freshly
constructed adapters (one explicit, one checked through the implicit
clause via a second adapter) the registered RHS slots and the initial
time are as claimed. -/
theorem C4_init_registers_trampoline_witness :
    (∃ m1, ((CVODESolver.construct ⟨1, 2⟩ CV_ADAMS CV_FUNCTIONAL).Init
        ⟨0, 2, fun _ xs => xs⟩).ode_mem = some m1 ∧
      m1.cv_rhs = some RhsFn.sundialsMult ∧ m1.cv_tn = 0 ∧
      m1.cv_zn0 = (CVODESolver.construct ⟨1, 2⟩ CV_ADAMS CV_FUNCTIONAL).y ∧
      m1.cv_user_data = some ⟨0, 2, fun _ xs => xs⟩) ∧
    (∃ m1, ((ARKODESolver.construct ⟨1, 2⟩ true).Init
        ⟨0, 2, fun _ xs => xs⟩).ode_mem = some m1 ∧
      m1.ark_fe = some RhsFn.sundialsMult ∧ m1.ark_fi = none ∧
      m1.ark_tn = 0 ∧ m1.ark_y0 = (ARKODESolver.construct ⟨1, 2⟩ true).y ∧
      m1.ark_user_data = some ⟨0, 2, fun _ xs => xs⟩) := by
  have h := C4_init_registers_trampoline
    (CVODESolver.construct ⟨1, 2⟩ CV_ADAMS CV_FUNCTIONAL)
    (ARKODESolver.construct ⟨1, 2⟩ true) ⟨0, 2, fun _ xs => xs⟩
    (CVodeCreate CV_ADAMS CV_FUNCTIONAL) ARKodeCreate rfl rfl
  exact ⟨h.1, h.2.1 rfl⟩

/-- C5: for every pair of tolerances, `SetSStolerances(reltol, abstol)`
on either solver adapter (with live solver memory) forwards exactly those
scalar tolerances to the external solver and sets the adapter's
`tolerances_set_sundials` flag. -/
theorem C5_tolerances_forwarded (sc : CVODESolver) (sa : ARKODESolver)
    (reltol abstol : R) (mc : CVodeMem) (ma : ARKodeMem)
    (hc : sc.ode_mem = some mc) (ha : sa.ode_mem = some ma) :
    (∃ m1, (sc.SetSStolerances reltol abstol).ode_mem = some m1 ∧
      m1.cv_reltol = reltol ∧ m1.cv_abstol = abstol) ∧
    (sc.SetSStolerances reltol abstol).tolerances_set_sundials = true ∧
    (∃ m1, (sa.SetSStolerances reltol abstol).ode_mem = some m1 ∧
      m1.ark_reltol = reltol ∧ m1.ark_abstol = abstol) ∧
    (sa.SetSStolerances reltol abstol).tolerances_set_sundials = true := by
  refine ⟨?_, rfl, ?_, rfl⟩
  · simp [CVODESolver.SetSStolerances, CVodeSStolerances, hc]
  · simp [ARKODESolver.SetSStolerances, ARKodeSStolerances, ha]

/-- Witness for C5 at concrete inputs: tolerances `(1/8, 1/16)` arrive
unchanged in both external memories and both flags are set. -/
theorem C5_tolerances_forwarded_witness :
    (∃ m1, ((CVODESolver.construct ⟨1, 2⟩ CV_ADAMS CV_FUNCTIONAL).SetSStolerances
        (1 / 8) (1 / 16)).ode_mem = some m1 ∧
      m1.cv_reltol = 1 / 8 ∧ m1.cv_abstol = 1 / 16) ∧
    ((CVODESolver.construct ⟨1, 2⟩ CV_ADAMS CV_FUNCTIONAL).SetSStolerances
      (1 / 8) (1 / 16)).tolerances_set_sundials = true ∧
    (∃ m1, ((ARKODESolver.construct ⟨1, 2⟩ true).SetSStolerances
        (1 / 8) (1 / 16)).ode_mem = some m1 ∧
      m1.ark_reltol = 1 / 8 ∧ m1.ark_abstol = 1 / 16) ∧
    ((ARKODESolver.construct ⟨1, 2⟩ true).SetSStolerances
      (1 / 8) (1 / 16)).tolerances_set_sundials = true :=
  C5_tolerances_forwarded
    (CVODESolver.construct ⟨1, 2⟩ CV_ADAMS CV_FUNCTIONAL)
    (ARKODESolver.construct ⟨1, 2⟩ true) (1 / 8) (1 / 16)
    (CVodeCreate CV_ADAMS CV_FUNCTIONAL) ARKodeCreate rfl rfl

/-- C6: in the serial build, `TransferNVectorShallow` makes the wrapped
`N_Vector` alias the data buffer of `x` (a pointer assignment, length
kept, no heap access at all), so in `Step` the external integrator's
result is written directly into the buffer of `x`, every other buffer is
untouched, and the adapter holds no separate copy of the state: after
the step its wrapped vector still aliases `x`. -/
theorem C6_shallow_transfer_aliases_x (ora : StepOracle) (sc : CVODESolver)
    (x : MVector) (y : NVector) (t dt : R) (heap : DataHeap) (mc : CVodeMem)
    (hc : sc.ode_mem = some mc) :
    (CVODESolver.TransferNVectorShallow x y).dataPtr = x.dataPtr ∧
    (CVODESolver.TransferNVectorShallow x y).length = y.length ∧
    (CVODESolver.Step ora sc x t dt heap).1.y.dataPtr = x.dataPtr ∧
    (CVODESolver.Step ora sc x t dt heap).2.2.2.1 x.dataPtr =
      ora.out mc.cv_tn (t + dt) ∧
    (∀ p, p ≠ x.dataPtr →
      (CVODESolver.Step ora sc x t dt heap).2.2.2.1 p = heap p) := by
  refine ⟨rfl, rfl, ?_, ?_, ?_⟩
  · simp [CVODESolver.Step, CVODESolver.TransferNVectorShallow, CVode, hc]
  · simp [CVODESolver.Step, CVODESolver.TransferNVectorShallow, CVode,
      CVodeGetLastStep, DataHeap.update, hc]
  · intro p hp
    simp [CVODESolver.Step, CVODESolver.TransferNVectorShallow, CVode,
      CVodeGetLastStep, DataHeap.update, hc, hp]

/-- Witness for C6 at concrete inputs: stepping with state buffer at
address 7 writes the oracle output `[9]` into address 7 and leaves
address 3 unchanged, and the wrapped vector aliases address 7. -/
theorem C6_shallow_transfer_aliases_x_witness :
    (CVODESolver.TransferNVectorShallow ⟨7, 2⟩ ⟨1, 2⟩).dataPtr = 7 ∧
    (CVODESolver.Step ⟨fun _ tout => tout, fun _ _ => 1, fun _ _ => [9]⟩
      (CVODESolver.construct ⟨1, 2⟩ CV_ADAMS CV_FUNCTIONAL) ⟨7, 2⟩ 0 1
      (fun _ => [4])).2.2.2.1 7 = [9] ∧
    (CVODESolver.Step ⟨fun _ tout => tout, fun _ _ => 1, fun _ _ => [9]⟩
      (CVODESolver.construct ⟨1, 2⟩ CV_ADAMS CV_FUNCTIONAL) ⟨7, 2⟩ 0 1
      (fun _ => [4])).2.2.2.1 3 = [4] ∧
    (CVODESolver.Step ⟨fun _ tout => tout, fun _ _ => 1, fun _ _ => [9]⟩
      (CVODESolver.construct ⟨1, 2⟩ CV_ADAMS CV_FUNCTIONAL) ⟨7, 2⟩ 0 1
      (fun _ => [4])).1.y.dataPtr = 7 := by
  have h := C6_shallow_transfer_aliases_x
    ⟨fun _ tout => tout, fun _ _ => 1, fun _ _ => [9]⟩
    (CVODESolver.construct ⟨1, 2⟩ CV_ADAMS CV_FUNCTIONAL) ⟨7, 2⟩ ⟨1, 2⟩ 0 1
    (fun _ => [4]) (CVodeCreate CV_ADAMS CV_FUNCTIONAL) rfl
  exact ⟨h.1, h.2.2.2.1, h.2.2.2.2 3 (by decide), h.2.2.1⟩

/-- C7: each adapter owns its external solver memory and wrapped state
vector: the constructor creates both (the vector wrapping the caller's
buffer, the memory freshly created), and the destructor destroys the
wrapped `N_Vector` and frees the solver memory, the latter only when the
`ode_mem` pointer is non-null. -/
theorem C7_ownership (yv : MVector) (lmm iter : Nat) (useExp : Bool)
    (sc : CVODESolver) (sa : ARKODESolver) :
    (CVODESolver.construct yv lmm iter).y = N_VMake_Serial yv.size yv.dataPtr ∧
    (CVODESolver.construct yv lmm iter).ode_mem = some (CVodeCreate lmm iter) ∧
    (ARKODESolver.construct yv useExp).y = N_VMake_Serial yv.size yv.dataPtr ∧
    (ARKODESolver.construct yv useExp).ode_mem = some ARKodeCreate ∧
    (sc.ode_mem ≠ none →
      sc.destruct = [Event.destroyNVector sc.y, Event.cvodeFree]) ∧
    (sc.ode_mem = none → sc.destruct = [Event.destroyNVector sc.y]) ∧
    (sa.ode_mem ≠ none →
      sa.destruct = [Event.destroyNVector sa.y, Event.arkodeFree]) ∧
    (sa.ode_mem = none → sa.destruct = [Event.destroyNVector sa.y]) := by
  refine ⟨rfl, rfl, rfl, rfl, ?_, ?_, ?_, ?_⟩
  · intro hne
    rcases hme : sc.ode_mem with _ | m
    · exact absurd hme hne
    · simp [CVODESolver.destruct, hme]
  · intro hme
    simp [CVODESolver.destruct, hme]
  · intro hne
    rcases hme : sa.ode_mem with _ | m
    · exact absurd hme hne
    · simp [ARKODESolver.destruct, hme]
  · intro hme
    simp [ARKODESolver.destruct, hme]

/-- Witness for C7 at concrete inputs: a freshly constructed CVODE
adapter tears down with destroy-then-free; an adapter whose memory
pointer is null only destroys its vector. -/
theorem C7_ownership_witness :
    (CVODESolver.construct ⟨1, 2⟩ CV_ADAMS CV_FUNCTIONAL).destruct =
      [Event.destroyNVector ⟨1, 2⟩, Event.cvodeFree] ∧
    ({ CVODESolver.construct ⟨1, 2⟩ CV_ADAMS CV_FUNCTIONAL with
        ode_mem := none } : CVODESolver).destruct =
      [Event.destroyNVector ⟨1, 2⟩] ∧
    (ARKODESolver.construct ⟨1, 2⟩ true).destruct =
      [Event.destroyNVector ⟨1, 2⟩, Event.arkodeFree] := by
  have h := C7_ownership ⟨1, 2⟩ CV_ADAMS CV_FUNCTIONAL true
    (CVODESolver.construct ⟨1, 2⟩ CV_ADAMS CV_FUNCTIONAL)
    (ARKODESolver.construct ⟨1, 2⟩ true)
  have h2 := C7_ownership ⟨1, 2⟩ CV_ADAMS CV_FUNCTIONAL true
    ({ CVODESolver.construct ⟨1, 2⟩ CV_ADAMS CV_FUNCTIONAL with
        ode_mem := none } : CVODESolver)
    (ARKODESolver.construct ⟨1, 2⟩ true)
  exact ⟨h.2.2.2.2.1 (by simp [CVODESolver.construct]),
    h2.2.2.2.2.2.1 rfl,
    h.2.2.2.2.2.2.1 (by simp [ARKODESolver.construct])⟩

/-- C8: calling `ARKODESolver::SetLinearSolve` on an adapter constructed
with `use_explicit` set frees the external memory, recreates and
re-initialises it at the previously reached internal time with the
trampoline registered as implicit RHS, and clears `use_explicit` for
good: afterwards every `ReInit` also registers the implicit RHS. -/
theorem C8_ark_setlinearsolve_switches_to_implicit (sa : ARKODESolver)
    (solve op : Nat) (ma : ARKodeMem)
    (hexp : sa.use_explicit = true) (ha : sa.ode_mem = some ma) :
    (sa.SetLinearSolve solve op).1.use_explicit = false ∧
    Event.arkodeFree ∈ (sa.SetLinearSolve solve op).2 ∧
    (∃ m1, (sa.SetLinearSolve solve op).1.ode_mem = some m1 ∧
      m1.ark_tn = ma.ark_tn ∧ m1.ark_fi = some RhsFn.sundialsMult ∧
      m1.ark_fe = none) ∧
    (∀ (f2 : TimeDependentOperator) (yv2 : MVector) (t2 : R), ∃ m2,
      ((sa.SetLinearSolve solve op).1.ReInit f2 yv2 t2).ode_mem = some m2 ∧
      m2.ark_fi = some RhsFn.sundialsMult ∧ m2.ark_fe = none) := by
  refine ⟨?_, ?_, ?_, ?_⟩ <;>
    simp [ARKODESolver.SetLinearSolve, ARKODESolver.SetSStolerances,
      ARKODESolver.ReInit, ARKODESolver.CreateNVector, ARKodeSStolerances,
      ARKodeInit, ARKodeReInit, ARKodeSetUserData, ARKodeSetMaxNumSteps,
      MFEMLinearARKSolve, ARKodeCreate, ha, hexp]

/-- Witness for C8 at a concrete input: an explicit adapter whose
internal time has reached 3 is switched to implicit mode at time 3, and
a subsequent `ReInit` still registers the implicit RHS. -/
theorem C8_ark_setlinearsolve_switches_to_implicit_witness :
    (({ ARKODESolver.construct ⟨1, 2⟩ true with
        ode_mem := some { ARKodeCreate with ark_tn := 3 } }
      : ARKODESolver).SetLinearSolve 7 9).1.use_explicit = false ∧
    (∃ m1, (({ ARKODESolver.construct ⟨1, 2⟩ true with
        ode_mem := some { ARKodeCreate with ark_tn := 3 } }
      : ARKODESolver).SetLinearSolve 7 9).1.ode_mem = some m1 ∧
      m1.ark_tn = 3 ∧ m1.ark_fi = some RhsFn.sundialsMult ∧
      m1.ark_fe = none) ∧
    (∃ m2, ((({ ARKODESolver.construct ⟨1, 2⟩ true with
        ode_mem := some { ARKodeCreate with ark_tn := 3 } }
      : ARKODESolver).SetLinearSolve 7 9).1.ReInit
        ⟨0, 2, fun _ xs => xs⟩ ⟨4, 2⟩ 5).ode_mem = some m2 ∧
      m2.ark_fi = some RhsFn.sundialsMult ∧ m2.ark_fe = none) := by
  have h := C8_ark_setlinearsolve_switches_to_implicit
    ({ ARKODESolver.construct ⟨1, 2⟩ true with
        ode_mem := some { ARKodeCreate with ark_tn := 3 } } : ARKODESolver)
    7 9 { ARKodeCreate with ark_tn := 3 } rfl rfl
  exact ⟨h.1, h.2.2.1, h.2.2.2 ⟨0, 2, fun _ xs => xs⟩ ⟨4, 2⟩ 5⟩

/-- C9: the installed ARKODE linear-solve hook performs the
caller-supplied Jacobian solve exactly when the stepper's internal time
is strictly positive; at internal time 0 or less it returns success (0)
with the memory unchanged and no events, so `SolveJacobian` is not
called and the right-hand-side vector `b` is not modified. -/
theorem C9_ark_lsolve_guarded_by_time (m : ARKodeMem)
    (lm : MFEMLinearSolverMemory) (b ycur fcur : NVector) :
    (0 < m.ark_tn →
      (WrapLinearARKSolve m lm b ycur fcur).2.1 =
        [Event.solveJacobian lm.op_for_gradient ⟨b.dataPtr, b.length⟩
          ⟨ycur.dataPtr, ycur.length⟩ lm.setup_y lm.J_solve m.ark_gamma]) ∧
    (¬ 0 < m.ark_tn →
      WrapLinearARKSolve m lm b ycur fcur = (m, [], 0)) := by
  constructor
  · intro htn
    simp [WrapLinearARKSolve, WrapLinearSolve, htn]
  · intro htn
    simp [WrapLinearARKSolve, htn]

/-- Witness for C9 at concrete inputs: at internal time 1 the hook emits
the redirected `SolveJacobian` call; at internal time 0 it returns the
memory unchanged with no events and flag 0. -/
theorem C9_ark_lsolve_guarded_by_time_witness :
    (WrapLinearARKSolve { ARKodeCreate with ark_tn := 1, ark_gamma := 2 }
      ⟨⟨0, 0⟩, ⟨0, 0⟩, ⟨0, 0⟩, ⟨0, 0⟩, ⟨0, 0⟩, ⟨0, 0⟩, ⟨0, 0⟩, 7, 9, 0⟩
      ⟨3, 2⟩ ⟨4, 2⟩ ⟨5, 2⟩).2.1 =
      [Event.solveJacobian 9 ⟨3, 2⟩ ⟨4, 2⟩ ⟨0, 0⟩ 7 2] ∧
    WrapLinearARKSolve ARKodeCreate
      ⟨⟨0, 0⟩, ⟨0, 0⟩, ⟨0, 0⟩, ⟨0, 0⟩, ⟨0, 0⟩, ⟨0, 0⟩, ⟨0, 0⟩, 7, 9, 0⟩
      ⟨3, 2⟩ ⟨4, 2⟩ ⟨5, 2⟩ = (ARKodeCreate, [], 0) := by
  have h1 := C9_ark_lsolve_guarded_by_time
    { ARKodeCreate with ark_tn := 1, ark_gamma := 2 }
    ⟨⟨0, 0⟩, ⟨0, 0⟩, ⟨0, 0⟩, ⟨0, 0⟩, ⟨0, 0⟩, ⟨0, 0⟩, ⟨0, 0⟩, 7, 9, 0⟩
    ⟨3, 2⟩ ⟨4, 2⟩ ⟨5, 2⟩
  have h2 := C9_ark_lsolve_guarded_by_time ARKodeCreate
    ⟨⟨0, 0⟩, ⟨0, 0⟩, ⟨0, 0⟩, ⟨0, 0⟩, ⟨0, 0⟩, ⟨0, 0⟩, ⟨0, 0⟩, 7, 9, 0⟩
    ⟨3, 2⟩ ⟨4, 2⟩ ⟨5, 2⟩
  exact ⟨h1.1 (by norm_num), h2.2 (by norm_num [ARKodeCreate])⟩

/-- C10: `CVODESolver::SetLinearSolve` on an adapter with
`CV_FUNCTIONAL` iteration frees and recreates the external memory as
`CV_BDF` with `CV_NEWTON` iteration, re-initialised at the previously
reached internal time, yet the member `solver_iteration_type` still
reads `CV_FUNCTIONAL` afterwards: a second `SetLinearSolve` frees and
recreates the memory again, and a later `ReInit` skips the `CV_NEWTON`
branch, attaching no banded linear solver. -/
theorem C10_cv_iteration_type_stale (sc : CVODESolver) (solve op : Nat)
    (mc : CVodeMem)
    (hit : sc.solver_iteration_type = CV_FUNCTIONAL)
    (hm : sc.ode_mem = some mc) :
    (sc.SetLinearSolve solve op).1.solver_iteration_type = CV_FUNCTIONAL ∧
    Event.cvodeFree ∈ (sc.SetLinearSolve solve op).2 ∧
    (∃ m1, (sc.SetLinearSolve solve op).1.ode_mem = some m1 ∧
      m1.cv_lmm = CV_BDF ∧ m1.cv_iter = CV_NEWTON ∧ m1.cv_tn = mc.cv_tn) ∧
    Event.cvodeFree ∈
      ((sc.SetLinearSolve solve op).1.SetLinearSolve solve op).2 ∧
    (∀ (f2 : TimeDependentOperator) (yv2 : MVector) (t2 : R), ∃ m2,
      ((sc.SetLinearSolve solve op).1.ReInit f2 yv2 t2).ode_mem = some m2 ∧
      m2.cv_ls = none) := by
  have hne : CV_FUNCTIONAL ≠ CV_NEWTON := by decide
  refine ⟨?_, ?_, ?_, ?_, ?_⟩ <;>
    simp [CVODESolver.SetLinearSolve, CVODESolver.SetSStolerances,
      CVODESolver.ReInit, CVODESolver.CreateNVector, CVodeSStolerances,
      CVodeInit, CVodeReInit, CVodeSetUserData, CVodeSetMaxNumSteps,
      CVBand, MFEMLinearCVSolve, CVodeCreate, hit, hm, hne]

/-- Witness for C10 at a concrete input: a functional-iteration adapter
whose internal time has reached 3 keeps `solver_iteration_type =
CV_FUNCTIONAL` after `SetLinearSolve`, its recreated memory is
`CV_BDF`/`CV_NEWTON` at time 3, and a second `SetLinearSolve` frees the
memory again. -/
theorem C10_cv_iteration_type_stale_witness :
    (({ CVODESolver.construct ⟨1, 2⟩ CV_ADAMS CV_FUNCTIONAL with
        ode_mem := some { CVodeCreate CV_ADAMS CV_FUNCTIONAL with cv_tn := 3 } }
      : CVODESolver).SetLinearSolve 7 9).1.solver_iteration_type =
      CV_FUNCTIONAL ∧
    (∃ m1, (({ CVODESolver.construct ⟨1, 2⟩ CV_ADAMS CV_FUNCTIONAL with
        ode_mem := some { CVodeCreate CV_ADAMS CV_FUNCTIONAL with cv_tn := 3 } }
      : CVODESolver).SetLinearSolve 7 9).1.ode_mem = some m1 ∧
      m1.cv_lmm = CV_BDF ∧ m1.cv_iter = CV_NEWTON ∧ m1.cv_tn = 3) ∧
    Event.cvodeFree ∈
      ((({ CVODESolver.construct ⟨1, 2⟩ CV_ADAMS CV_FUNCTIONAL with
        ode_mem := some { CVodeCreate CV_ADAMS CV_FUNCTIONAL with cv_tn := 3 } }
      : CVODESolver).SetLinearSolve 7 9).1.SetLinearSolve 7 9).2 := by
  have h := C10_cv_iteration_type_stale
    ({ CVODESolver.construct ⟨1, 2⟩ CV_ADAMS CV_FUNCTIONAL with
        ode_mem := some { CVodeCreate CV_ADAMS CV_FUNCTIONAL with cv_tn := 3 } }
      : CVODESolver) 7 9
    { CVodeCreate CV_ADAMS CV_FUNCTIONAL with cv_tn := 3 } rfl rfl
  exact ⟨h.1, h.2.2.1, h.2.2.2.1⟩

end mfem
